import Mathlib

/-! Shallow embedding of the Todo application: the client-side List Controller
from src/client/src/App.jsx and the Store Gateway Create operation. -/

/-- A Task Item as the client sees it: Mongo document id, title, completion flag. -/
structure Todo where
  _id : Nat
  title : String
  completed : Bool
  deriving DecidableEq, Repr

/-- Client state held by the App component: the todos list, the input field,
the loading flag, the error message and the active filter string. -/
structure ClientState where
  todos : List Todo
  newTitle : String
  loading : Bool
  error : Option String
  filter : String
  deriving DecidableEq, Repr

/-- Derived view shownTodos (App.jsx lines 14-18): filter the list by the
active filter string; any other string leaves the list unfiltered. -/
def shownTodos (filter : String) (todos : List Todo) : List Todo :=
  if filter = "active" then todos.filter (fun t => !t.completed)
  else if filter = "completed" then todos.filter (fun t => t.completed)
  else todos

/-- Model of the JavaScript method trim on strings: drop leading and trailing
whitespace characters. -/
def jsTrim (s : String) : String :=
  ⟨((s.data.dropWhile Char.isWhitespace).reverse.dropWhile Char.isWhitespace).reverse⟩

/-- Operation handleAdd (App.jsx lines 54-68). The network round trip is the
argument resp: the result of createTodo for the sent payload. The second
component of the result is the title of the Create request that was sent,
or none when the whitespace guard returned before sending anything.
On success the created item is prepended and the input cleared; on failure
the error message is set; the finally block clears the loading flag. -/
def handleAdd (s : ClientState) (resp : Except Unit Todo) : ClientState × Option String :=
  if jsTrim s.newTitle = "" then (s, none)
  else
    match resp with
    | .ok created =>
        ({ s with todos := created :: s.todos, newTitle := "",
                  loading := false, error := none },
         some (jsTrim s.newTitle))
    | .error _ =>
        ({ s with loading := false, error := some "Failed to add todo" },
         some (jsTrim s.newTitle))

/-- Operation toggleCompleted (App.jsx lines 70-81). resp is the result of
updateTodo for the given todo; the second component of the result is the
Update request that was sent: the id of the todo and the flipped completed
flag. On success every list entry whose id equals the id of the returned
item is replaced by it in place. -/
def toggleCompleted (s : ClientState) (todo : Todo) (resp : Except Unit Todo) :
    ClientState × (Nat × Bool) :=
  (match resp with
   | .ok updated =>
       { s with todos := s.todos.map (fun t => if t._id = updated._id then updated else t),
                loading := false, error := none }
   | .error _ => { s with loading := false, error := some "Failed to update todo" },
   (todo._id, !todo.completed))

/-- Operation removeTodo (App.jsx lines 83-94). resp is the result of
deleteTodo for the given id; on success the entries with that id are
dropped from the list. -/
def removeTodo (s : ClientState) (id : Nat) (resp : Except Unit Unit) : ClientState :=
  match resp with
  | .ok _ => { s with todos := s.todos.filter (fun t => t._id != id), loading := false, error := none }
  | .error _ => { s with loading := false, error := some "Failed to delete todo" }

/-- Final state update of the clear-completed sweep (App.jsx line 109): the
updater passed to setTodos, keeping only the entries that are not completed
in the list it is applied to. -/
def clearCompletedFinalUpdate (prev : List Todo) : List Todo :=
  prev.filter (fun t => !t.completed)

/-- Operation clearCompleted (App.jsx lines 96-115). The completed entries are
snapshotted at invocation; when there are none the function returns at once.
Otherwise a Delete is issued for each snapshotted id in order; the per-item
outcomes are swallowed by the inner catch and never influence the result.
The second component of the result lists the ids for which a Delete was
issued, in issue order. -/
def clearCompleted (s : ClientState) (outcomes : List (Except Unit Unit)) :
    ClientState × List Nat :=
  let completed := s.todos.filter (fun t => t.completed)
  if completed.length = 0 then (s, [])
  else
    ({ s with todos := clearCompletedFinalUpdate s.todos, loading := false, error := none },
     completed.map Todo._id)

/-- Error taxonomy of the Store Gateway. -/
inductive GatewayError where
  | ValidationError
  | NotFound
  | StoreUnavailable
  deriving DecidableEq, Repr

/-- Store state: the document store assigns fresh ids from a counter and keeps
the collection of documents. -/
structure StoreState where
  nextId : Nat
  docs : List Todo
  deriving DecidableEq, Repr

/-- Modelled from the spec: the Store Gateway Create operation. The Express
route module routes/todos.js is not under src/ (only server/index.js, which
mounts it, is), so Create is taken from the contract in the spec: input is a
title (required, non-empty after trimming) and optionally completed
(defaults false); it returns the newly created item including its
store-assigned id, or fails with ValidationError when the title is missing
or empty after trimming. -/
def createGateway (st : StoreState) (title : Option String) (completed : Option Bool) :
    Except GatewayError (Todo × StoreState) :=
  match title with
  | none => .error .ValidationError
  | some t =>
      if jsTrim t = "" then .error .ValidationError
      else
        let item : Todo := { _id := st.nextId, title := t, completed := completed.getD false }
        .ok (item, { nextId := st.nextId + 1, docs := st.docs ++ [item] })

/-- Run a sequence of Create requests against the gateway, collecting the
successfully created items in order. -/
def runCreates : StoreState → List (Option String × Option Bool) → List Todo × StoreState
  | st, [] => ([], st)
  | st, r :: rs =>
      match createGateway st r.1 r.2 with
      | .ok (item, st2) =>
          let rest := runCreates st2 rs
          (item :: rest.1, rest.2)
      | .error _ => runCreates st rs

/-- C2: under filter active, shownTodos is exactly the subsequence of todos
with completed false, in the same relative order; under completed, exactly
the subsequence with completed true, in the same relative order; under all
it equals todos. -/
theorem shownTodos_spec (todos : List Todo) :
    (List.Sublist (shownTodos "active" todos) todos ∧
      ∀ t : Todo, t ∈ shownTodos "active" todos ↔ t ∈ todos ∧ t.completed = false) ∧
    (List.Sublist (shownTodos "completed" todos) todos ∧
      ∀ t : Todo, t ∈ shownTodos "completed" todos ↔ t ∈ todos ∧ t.completed = true) ∧
    shownTodos "all" todos = todos := by
  have ha : shownTodos "active" todos = todos.filter (fun t => !t.completed) := by
    simp [shownTodos]
  have hc : shownTodos "completed" todos = todos.filter (fun t => t.completed) := by
    simp [shownTodos]
  have hl : shownTodos "all" todos = todos := by simp [shownTodos]
  refine ⟨⟨?_, ?_⟩, ⟨?_, ?_⟩, hl⟩
  · rw [ha]; exact List.filter_sublist _
  · intro t; rw [ha, List.mem_filter]; simp
  · rw [hc]; exact List.filter_sublist _
  · intro t; rw [hc, List.mem_filter]

/-- C4: invoking Add with an empty or whitespace-only title is a complete
no-op: the state (todos, loading, error included) is unchanged and no Create
request is sent. -/
theorem handleAdd_whitespace_noop (s : ClientState) (resp : Except Unit Todo)
    (h : jsTrim s.newTitle = "") : handleAdd s resp = (s, none) := by
  simp [handleAdd, h]

/-- Witness for C4 at a concrete whitespace-only input. -/
theorem handleAdd_whitespace_noop_witness :
    jsTrim "   " = "" ∧
      handleAdd ⟨[⟨1, "a", false⟩], "   ", false, none, "all"⟩ (.ok ⟨2, "b", false⟩) =
        (⟨[⟨1, "a", false⟩], "   ", false, none, "all"⟩, none) :=
  ⟨by decide, handleAdd_whitespace_noop _ _ (by decide)⟩

/-- C5: a successful Add with a non-whitespace title prepends the item
returned by the server to todos and resets the input field to the empty
string. -/
theorem handleAdd_success_spec (s : ClientState) (created : Todo)
    (h : jsTrim s.newTitle ≠ "") :
    (handleAdd s (.ok created)).1.todos = created :: s.todos ∧
    (handleAdd s (.ok created)).1.newTitle = "" := by
  simp [handleAdd, h]

/-- Witness for C5 at a concrete input. -/
theorem handleAdd_success_spec_witness :
    jsTrim "Buy milk" ≠ "" ∧
      ((handleAdd ⟨[⟨1, "a", true⟩], "Buy milk", false, none, "all"⟩
          (.ok ⟨2, "Buy milk", false⟩)).1.todos =
        [⟨2, "Buy milk", false⟩, ⟨1, "a", true⟩] ∧
      (handleAdd ⟨[⟨1, "a", true⟩], "Buy milk", false, none, "all"⟩
          (.ok ⟨2, "Buy milk", false⟩)).1.newTitle = "") :=
  ⟨by decide, handleAdd_success_spec _ _ (by decide)⟩

/-- C3: when the network call of Add, Toggle or Remove fails, the operation
leaves todos unchanged, sets the error to the non-empty per-operation
message, and the loading flag ends false. -/
theorem ops_failure_spec (s : ClientState) (todo : Todo) (id : Nat)
    (h : jsTrim s.newTitle ≠ "") :
    ((handleAdd s (.error ())).1.todos = s.todos ∧
      (handleAdd s (.error ())).1.error = some "Failed to add todo" ∧
      "Failed to add todo" ≠ "" ∧ (handleAdd s (.error ())).1.loading = false) ∧
    ((toggleCompleted s todo (.error ())).1.todos = s.todos ∧
      (toggleCompleted s todo (.error ())).1.error = some "Failed to update todo" ∧
      "Failed to update todo" ≠ "" ∧ (toggleCompleted s todo (.error ())).1.loading = false) ∧
    ((removeTodo s id (.error ())).todos = s.todos ∧
      (removeTodo s id (.error ())).error = some "Failed to delete todo" ∧
      "Failed to delete todo" ≠ "" ∧ (removeTodo s id (.error ())).loading = false) := by
  refine ⟨⟨?_, ?_, by decide, ?_⟩, ⟨rfl, rfl, by decide, rfl⟩, ⟨rfl, rfl, by decide, rfl⟩⟩
  · simp [handleAdd, h]
  · simp [handleAdd, h]
  · simp [handleAdd, h]

/-- Witness for C3 at a concrete input. -/
theorem ops_failure_spec_witness :
    jsTrim "x" ≠ "" ∧
      (handleAdd ⟨[⟨1, "a", true⟩], "x", false, none, "all"⟩ (.error ())).1.todos =
        [⟨1, "a", true⟩] :=
  ⟨by decide,
    ((ops_failure_spec ⟨[⟨1, "a", true⟩], "x", false, none, "all"⟩ ⟨1, "a", true⟩ 1
        (by decide)).1).1⟩

/-- C6: a successful Toggle keeps the length of todos and rewrites it
pointwise: the position whose entry has the id of the server-returned item
now holds that item, every other position holds its previous entry. -/
theorem toggleCompleted_success_frame (s : ClientState) (todo updated : Todo) :
    (toggleCompleted s todo (.ok updated)).1.todos.length = s.todos.length ∧
    ∀ i : Nat, (toggleCompleted s todo (.ok updated)).1.todos[i]? =
      (s.todos[i]?).map (fun t => if t._id = updated._id then updated else t) := by
  constructor
  · simp [toggleCompleted]
  · intro i; simp [toggleCompleted]

/-- C7: a successful Remove drops exactly the entries whose id equals the
requested id; the remaining entries are a subsequence of the previous todos,
so their relative order is preserved. -/
theorem removeTodo_success_spec (s : ClientState) (id : Nat) :
    List.Sublist (removeTodo s id (.ok ())).todos s.todos ∧
    ∀ t : Todo, t ∈ (removeTodo s id (.ok ())).todos ↔ t ∈ s.todos ∧ t._id ≠ id := by
  constructor
  · exact List.filter_sublist _
  · intro t; simp [removeTodo, List.mem_filter]

/-- C9: after the update of the clear-completed sweep no completed item
remains: the final updater drops every entry whose completed flag is true in
the list it is applied to, whatever that list is at completion time, and in
particular the todos after a sweep hold no completed entry. -/
theorem clearCompleted_no_completed_left (prev : List Todo) (s : ClientState)
    (outcomes : List (Except Unit Unit)) (t : Todo) :
    (t ∈ clearCompletedFinalUpdate prev → t.completed = false) ∧
    (t ∈ (clearCompleted s outcomes).1.todos → t.completed = false) := by
  have hupd : ∀ l : List Todo, t ∈ clearCompletedFinalUpdate l → t.completed = false := by
    intro l ht
    have := (List.mem_filter.mp ht).2
    simpa using this
  refine ⟨hupd prev, ?_⟩
  intro ht
  by_cases hc : (s.todos.filter (fun u => u.completed)).length = 0
  · have hnil : s.todos.filter (fun u => u.completed) = [] := List.length_eq_zero.mp hc
    simp only [clearCompleted, hc, if_pos] at ht
    have := List.filter_eq_nil_iff.mp hnil t ht
    simpa using this
  · simp only [clearCompleted, hc, if_neg, not_false_iff] at ht
    exact hupd s.todos ht

/-- Witness for C9 at a concrete input. -/
theorem clearCompleted_no_completed_left_witness :
    ((⟨5, "w", true⟩ : Todo) ∈
        clearCompletedFinalUpdate [⟨5, "w", true⟩, ⟨6, "v", false⟩] →
      Todo.completed ⟨5, "w", true⟩ = false) ∧
    ((⟨5, "w", true⟩ : Todo) ∈
        (clearCompleted ⟨[⟨5, "w", true⟩, ⟨6, "v", false⟩], "", false, none, "all"⟩ []).1.todos →
      Todo.completed ⟨5, "w", true⟩ = false) :=
  clearCompleted_no_completed_left [⟨5, "w", true⟩, ⟨6, "v", false⟩]
    ⟨[⟨5, "w", true⟩, ⟨6, "v", false⟩], "", false, none, "all"⟩ [] ⟨5, "w", true⟩

/-- C10: when no item is completed at invocation, the clear-completed sweep
returns before issuing any Delete and leaves the whole state unchanged. -/
theorem clearCompleted_noop (s : ClientState) (outcomes : List (Except Unit Unit))
    (h : ∀ t ∈ s.todos, t.completed = false) :
    clearCompleted s outcomes = (s, []) := by
  have hnil : s.todos.filter (fun t => t.completed) = [] := by
    apply List.filter_eq_nil_iff.mpr
    intro a ha
    simp [h a ha]
  simp [clearCompleted, hnil]

/-- Witness for C10 at a concrete input. -/
theorem clearCompleted_noop_witness :
    (∀ t ∈ ([⟨1, "a", false⟩, ⟨2, "b", false⟩] : List Todo), t.completed = false) ∧
      clearCompleted ⟨[⟨1, "a", false⟩, ⟨2, "b", false⟩], "", false, none, "all"⟩
          [.error ()] =
        (⟨[⟨1, "a", false⟩, ⟨2, "b", false⟩], "", false, none, "all"⟩, []) :=
  ⟨by decide,
    clearCompleted_noop ⟨[⟨1, "a", false⟩, ⟨2, "b", false⟩], "", false, none, "all"⟩
      [.error ()] (by decide)⟩

/-- C1: with pairwise distinct ids, the sweep issues one Delete per snapshot
id in order and, whatever the per-item outcomes, afterwards the todos hold
none of the items whose id was in the snapshot, all the items whose id was
not, and are a subsequence of the previous todos. -/
theorem clearCompleted_sweep_spec (s : ClientState) (outcomes : List (Except Unit Unit))
    (hids : s.todos.Pairwise (fun a b => a._id ≠ b._id)) :
    (clearCompleted s outcomes).2 = (s.todos.filter (fun u => u.completed)).map Todo._id ∧
    (∀ t ∈ s.todos,
      t._id ∈ (s.todos.filter (fun u => u.completed)).map Todo._id →
        t ∉ (clearCompleted s outcomes).1.todos) ∧
    (∀ t ∈ s.todos,
      t._id ∉ (s.todos.filter (fun u => u.completed)).map Todo._id →
        t ∈ (clearCompleted s outcomes).1.todos) ∧
    List.Sublist (clearCompleted s outcomes).1.todos s.todos := by
  have hsym : Symmetric (fun a b : Todo => a._id ≠ b._id) := fun x y h h2 => h h2.symm
  have hinj : ∀ a ∈ s.todos, ∀ b ∈ s.todos, a._id = b._id → a = b := by
    intro a ha b hb hab
    by_contra hne
    exact List.Pairwise.forall hsym hids ha hb hne hab
  have hsnap : ∀ t ∈ s.todos,
      (t._id ∈ (s.todos.filter (fun u => u.completed)).map Todo._id ↔ t.completed = true) := by
    intro t ht
    constructor
    · intro hin
      rcases List.mem_map.mp hin with ⟨u, hu, huid⟩
      rcases List.mem_filter.mp hu with ⟨hu1, hu2⟩
      have : u = t := hinj u hu1 t ht huid
      rw [← this]
      exact hu2
    · intro hcomp
      exact List.mem_map_of_mem Todo._id (List.mem_filter.mpr ⟨ht, hcomp⟩)
  have hres : (clearCompleted s outcomes).1.todos = s.todos.filter (fun t => !t.completed) ∧
      (clearCompleted s outcomes).2 =
        (s.todos.filter (fun u => u.completed)).map Todo._id := by
    by_cases hc : (s.todos.filter (fun u => u.completed)).length = 0
    · have hnil : s.todos.filter (fun u => u.completed) = [] := List.length_eq_zero.mp hc
      have hall : s.todos.filter (fun t => !t.completed) = s.todos := by
        apply List.filter_eq_self.mpr
        intro a ha
        have := List.filter_eq_nil_iff.mp hnil a ha
        simpa using this
      simp [clearCompleted, hc, hnil, hall]
    · simp [clearCompleted, hc, clearCompletedFinalUpdate]
  refine ⟨hres.2, ?_, ?_, ?_⟩
  · intro t ht hin
    rw [hres.1]
    intro hmem
    have h1 : t.completed = true := (hsnap t ht).mp hin
    have h2 := (List.mem_filter.mp hmem).2
    simp [h1] at h2
  · intro t ht hout
    rw [hres.1]
    apply List.mem_filter.mpr
    refine ⟨ht, ?_⟩
    have : ¬t.completed = true := fun hcomp => hout ((hsnap t ht).mpr hcomp)
    simp [Bool.not_eq_true] at this
    simp [this]
  · rw [hres.1]
    exact List.filter_sublist _

/-- Witness for C1 at the concrete example of the spec: items with ids 1 and
3 completed, id 2 not; the sweep deletes ids 1 and 3 and leaves only id 2. -/
theorem clearCompleted_sweep_spec_witness :
    ([⟨1, "x", true⟩, ⟨2, "y", false⟩, ⟨3, "z", true⟩] : List Todo).Pairwise
        (fun a b => a._id ≠ b._id) ∧
    (clearCompleted ⟨[⟨1, "x", true⟩, ⟨2, "y", false⟩, ⟨3, "z", true⟩], "", false, none,
        "all"⟩ [.error (), .error ()]).1.todos = [⟨2, "y", false⟩] ∧
    (⟨1, "x", true⟩ : Todo) ∉
      (clearCompleted ⟨[⟨1, "x", true⟩, ⟨2, "y", false⟩, ⟨3, "z", true⟩], "", false, none,
        "all"⟩ [.error (), .error ()]).1.todos :=
  ⟨by decide, by decide,
    (clearCompleted_sweep_spec
        ⟨[⟨1, "x", true⟩, ⟨2, "y", false⟩, ⟨3, "z", true⟩], "", false, none, "all"⟩
        [.error (), .error ()] (by decide)).2.1 ⟨1, "x", true⟩ (by decide) (by decide)⟩

/-- Helper: a successful Create assigns the current counter as the id of the
created item and advances the counter by one. -/
theorem createGateway_ok_fields (st : StoreState) (title : Option String) (c : Option Bool)
    (item : Todo) (st2 : StoreState)
    (h : createGateway st title c = .ok (item, st2)) :
    item._id = st.nextId ∧ st2.nextId = st.nextId + 1 := by
  cases title with
  | none => simp [createGateway] at h
  | some t =>
      by_cases ht : jsTrim t = ""
      · simp [createGateway, ht] at h
      · simp [createGateway, ht] at h
        obtain ⟨h1, h2⟩ := h
        rw [← h1, ← h2]
        exact ⟨rfl, rfl⟩

/-- Helper: every item created by a run of Creates has an id at least the
counter value the run started from. -/
theorem runCreates_id_lower (reqs : List (Option String × Option Bool)) :
    ∀ st : StoreState, ∀ t ∈ (runCreates st reqs).1, st.nextId ≤ t._id := by
  induction reqs with
  | nil => intro st t ht; simp [runCreates] at ht
  | cons r rs ih =>
      intro st t ht
      simp only [runCreates] at ht
      cases hc : createGateway st r.1 r.2 with
      | ok p =>
          obtain ⟨item, st2⟩ := p
          rw [hc] at ht
          simp only [List.mem_cons] at ht
          have hfields := createGateway_ok_fields st r.1 r.2 item st2 hc
          rcases ht with rfl | ht
          · exact Nat.le_of_eq hfields.1.symm
          · have := ih st2 t ht
            omega
      | error e =>
          rw [hc] at ht
          exact ih st t ht

/-- Helper: the ids of the items created by a run of Creates are pairwise
distinct. -/
theorem runCreates_ids_pairwise (reqs : List (Option String × Option Bool)) :
    ∀ st : StoreState, (runCreates st reqs).1.Pairwise (fun a b => a._id ≠ b._id) := by
  induction reqs with
  | nil => intro st; simp [runCreates]
  | cons r rs ih =>
      intro st
      simp only [runCreates]
      cases hc : createGateway st r.1 r.2 with
      | ok p =>
          obtain ⟨item, st2⟩ := p
          simp only []
          refine List.Pairwise.cons ?_ (ih st2)
          intro b hb
          have hlow := runCreates_id_lower rs st2 b hb
          have hfields := createGateway_ok_fields st r.1 r.2 item st2 hc
          omega
      | error e => exact ih st

/-- C8: Create fails with ValidationError when the title is missing or empty
after trimming; otherwise it returns the created item carrying the
store-assigned id, with completed defaulting to false when not supplied; and
over any sequence of Creates the returned ids are pairwise distinct. -/
theorem createGateway_spec (st : StoreState) (c : Option Bool) (t : String)
    (reqs : List (Option String × Option Bool)) :
    createGateway st none c = .error .ValidationError ∧
    (jsTrim t = "" → createGateway st (some t) c = .error .ValidationError) ∧
    (jsTrim t ≠ "" →
      ∃ item st2, createGateway st (some t) c = .ok (item, st2) ∧
        item._id = st.nextId ∧ item.title = t ∧ (c = none → item.completed = false)) ∧
    ((runCreates st reqs).1.map Todo._id).Nodup := by
  refine ⟨rfl, ?_, ?_, ?_⟩
  · intro h; simp [createGateway, h]
  · intro h
    refine ⟨{ _id := st.nextId, title := t, completed := c.getD false },
      { nextId := st.nextId + 1,
        docs := st.docs ++ [{ _id := st.nextId, title := t, completed := c.getD false }] },
      ?_, rfl, rfl, ?_⟩
    · simp [createGateway, h]
    · intro hc; simp [hc]
  · have hpair := runCreates_ids_pairwise reqs st
    exact List.pairwise_map.mpr hpair

/-- Witness for C8 at concrete inputs. -/
theorem createGateway_spec_witness :
    jsTrim "  " = "" ∧ jsTrim "hi" ≠ "" ∧
    createGateway ⟨0, []⟩ (some "  ") none = .error .ValidationError ∧
    (∃ item st2, createGateway ⟨0, []⟩ (some "hi") none = .ok (item, st2) ∧
      item._id = 0 ∧ item.title = "hi" ∧ ((none : Option Bool) = none → item.completed = false)) :=
  ⟨by decide, by decide,
    (createGateway_spec ⟨0, []⟩ none "  " []).2.1 (by decide),
    (createGateway_spec ⟨0, []⟩ none "hi" []).2.2.1 (by decide)⟩
